import Mathlib

/-!
# Verification of the AI Insight Orchestration Layer

Shallow embedding of the orchestration functions of `ai_services.py` and the
app-level helpers of `app.py` (repository Pavithra-2007/Vynex).

External backends (IBM Watson Assistant / NLU, the Granite HTTP endpoint, the
HuggingFace pipeline) are modelled by an explicit environment `Env` that
records, for each external call the Python code can make, either the payload
the call returns or the exception it raises.  Python exceptions are modelled
with `Except String`; a `try ... except` block of the source becomes an
explicit `match` on the embedded body, with the handler producing the value the
`except` clause returns.  Python `dict` payloads are modelled by a small JSON
value type; numeric literals become rationals.
-/

/-- JSON-like values, modelling the Python dict/list/str/float payloads that
flow through the orchestration layer. -/
inductive Json where
  | null
  | str (s : String)
  | num (q : ℚ)
  | arr (xs : List Json)
  | obj (fields : List (String × Json))

/-- `isinstance(x, dict)` on a payload. -/
def Json.isObj : Json → Bool
  | .obj _ => true
  | _ => false

/-- Python `d[k]` subscripting: `KeyError` when the key is absent,
`TypeError` when the value is not a dict. -/
def pyGet (j : Json) (k : String) : Except String Json :=
  match j with
  | .obj fs =>
    match fs.lookup k with
    | some v => .ok v
    | none => .error ("KeyError: " ++ k)
  | _ => .error "TypeError: object is not subscriptable"

/-- Python `x[i]` indexing: works on lists (IndexError when out of range) and
on strings (yielding a one-character string); `TypeError` otherwise. -/
def pyIndex (j : Json) (i : Nat) : Except String Json :=
  match j with
  | .arr xs =>
    match xs.get? i with
    | some v => .ok v
    | none => .error "IndexError: list index out of range"
  | .str s =>
    match s.data.get? i with
    | some c => .ok (.str (String.mk [c]))
    | none => .error "IndexError: string index out of range"
  | _ => .error "TypeError: object is not subscriptable"

/-- Python `d.get(k, default)`: total on dicts, `AttributeError` on anything
else (only dicts have `.get`). -/
def pyGetD (j : Json) (k : String) (d : Json) : Except String Json :=
  match j with
  | .obj fs => .ok ((fs.lookup k).getD d)
  | _ => .error "AttributeError: object has no attribute get"

/-- Coercion used where Python implicitly requires a `str` (string methods,
`str + str` concatenation): raises `TypeError`/`AttributeError` otherwise. -/
def pyAsStr (j : Json) : Except String String :=
  match j with
  | .str s => .ok s
  | _ => .error "TypeError: expected str"

/-- Python `str.capitalize()`: first character upper-cased, the rest
lower-cased. -/
def pyCapitalize (s : String) : String :=
  match s.data with
  | [] => ""
  | c :: cs => String.mk (c.toUpper :: cs.map Char.toLower)

/-- Python `str.lower()`. -/
def pyLower (s : String) : String :=
  String.mk (s.data.map Char.toLower)

/-- Python `sub in s` substring test. -/
def pyContains (s sub : String) : Bool :=
  decide (sub.data <:+: s.data)

/-- A conversation context: the Python code passes around either `None` or a
dict such as `{'session_id': sid}`; we model the dict as an association
list. -/
abbrev Ctx := List (String × Json)

/-- Truthiness test `not context or 'session_id' not in context` of
`chat_with_watson` (line 161 of `ai_services.py`): `None` and the empty dict
are falsy; otherwise the key is looked up. -/
def needNewSession : Option Ctx → Bool
  | none => true
  | some d => d.isEmpty || (d.lookup "session_id").isNone

/-- Python `context['session_id']` on an optional context. -/
def ctxGet (c : Option Ctx) (k : String) : Except String Json :=
  match c with
  | none => .error "TypeError: NoneType is not subscriptable"
  | some d =>
    match d.lookup k with
    | some v => .ok v
    | none => .error ("KeyError: " ++ k)

/-- Outcome of `init_huggingface_models`: either an API key was found, or the
local sentiment pipeline was constructed. (`None` is modelled by wrapping
in `Option` inside `Env`.) -/
inductive HFInit where
  | api (key : String)
  | localModel

/-- The behaviour of every external collaborator the orchestration layer can
touch.  Each field records what one external call returns (`.ok payload`) or
the exception it raises (`.error msg`).  Reading the environment variables and
constructing the SDK clients is collapsed into the `...Available` /
`...Configured` booleans, exactly as the spec's `isConfigured` predicate:
`false` covers both absent credentials and a construction-time exception
(both make the init helper of `ai_services.py` return `None`). -/
structure Env where
  /-- `init_watson_assistant()` returned an assistant (not `None`). -/
  assistantAvailable : Bool
  /-- index drawn by `random.choice` over the five canned chat replies. -/
  fallbackChoice : Fin 5
  /-- `assistant.create_session(...).get_result()`: session payload or
  SDK exception. -/
  createSessionResult : Except String Json
  /-- `assistant.message(..., session_id, input={'text': message}).get_result()`:
  response payload or exception, as a function of session id and message. -/
  messageResult : Json → String → Except String Json
  /-- `init_watson_nlp()` returned an NLU client (not `None`). -/
  nlpAvailable : Bool
  /-- `nlu.analyze(text=..., features=...).get_result()`: payload or
  exception.  The `features` argument is the fixed literal of lines 124-131. -/
  nluResult : String → Except String Json
  /-- `GRANITE_API_KEY` and `GRANITE_URL` are both set. -/
  graniteConfigured : Bool
  /-- `requests.post(url, headers, json=payload)` + `raise_for_status()` +
  `response.json()`, as a function of prompt and model type: parsed body, or
  exception (network error, non-2xx status, unparsable body). -/
  granitePost : String → String → Except String Json
  /-- Outcome of `init_huggingface_models()` (`None` when neither an API key
  nor a local pipeline is available). -/
  hfInit : Option HFInit
  /-- `models["sentiment"](text)`: the local pipeline applied to the
  (already truncated) text, or the exception it raises. -/
  pipelineRun : String → Except String Json

/-! ## call_granite_model (ai_services.py lines 79-106) -/

/-- Mock recommendation returned when Granite is unconfigured
(line 86 of `ai_services.py`). -/
def graniteMockUnconfigured : String :=
  "AI Analysis: Based on your financial data, I recommend:\n\n1. Increase emergency fund to 3-6 months of expenses\n2. Consider diversifying investments\n3. Review subscription services for potential savings\n4. Set up automatic transfers to savings account\n\nThese steps could improve your financial health score by 15-20 points."

/-- Fallback recommendation returned by the `except` clause when the Granite
call fails (line 106 of `ai_services.py`). -/
def graniteMockOnError : String :=
  "AI analysis: Based on your financial data, I recommend building a larger emergency fund and reviewing your investment strategy for better long-term growth."

/-- `call_granite_model(prompt, model_type)`.  The whole body sits inside
`try ... except`; the result of `response.json()` is fed through
`.get('choices', [{}])[0].get('text', '')`. -/
def call_granite_model (env : Env) (prompt model_type : String) :
    Except String Json :=
  match ((if env.graniteConfigured then
          match env.granitePost prompt model_type with
          | .error e => .error e
          | .ok body =>
            match pyGetD body "choices" (.arr [.obj []]) with
            | .error e => .error e
            | .ok choices =>
              match pyIndex choices 0 with
              | .error e => .error e
              | .ok c0 => pyGetD c0 "text" (.str "")
        else
          .ok (Json.str graniteMockUnconfigured)) : Except String Json) with
  | .ok r => .ok r
  | .error _ => .ok (.str graniteMockOnError)

/-! ## analyze_financial_sentiment (ai_services.py lines 109-142) -/

/-- Mock sentiment payload returned when the NLU service is unavailable
(lines 113-119 of `ai_services.py`). -/
def sentimentMockUnavailable : Json :=
  .obj [("sentiment", .obj [("document",
          .obj [("label", .str "neutral"), ("score", .num (65/100))])]),
        ("keywords", .arr
          [.obj [("text", .str "savings"),
                 ("sentiment", .obj [("score", .num (8/10))])],
           .obj [("text", .str "investment"),
                 ("sentiment", .obj [("score", .num (7/10))])]])]

/-- Mock sentiment payload returned by the `except` clause when the NLU call
raises (lines 136-142 of `ai_services.py`). -/
def sentimentMockOnError : Json :=
  .obj [("sentiment", .obj [("document",
          .obj [("label", .str "neutral"), ("score", .num (65/100))])]),
        ("keywords", .arr
          [.obj [("text", .str "savings"),
                 ("sentiment", .obj [("score", .num (8/10))])],
           .obj [("text", .str "investment"),
                 ("sentiment", .obj [("score", .num (7/10))])]])]

/-- `analyze_financial_sentiment(text)`. -/
def analyze_financial_sentiment (env : Env) (text : String) :
    Except String Json :=
  if env.nlpAvailable then
    match env.nluResult text with
    | .ok response => .ok response
    | .error _ => .ok sentimentMockOnError
  else
    .ok sentimentMockUnavailable

/-! ## chat_with_watson (ai_services.py lines 145-178) -/

/-- The five canned replies used by the offline chat fallback
(lines 149-155 of `ai_services.py`). -/
def chatFallbackResponses : List String :=
  ["I\x27ve analyzed your financial data. Based on your spending patterns, I recommend increasing your emergency fund to 3 months of expenses.",
   "Looking at your budget, I suggest reducing entertainment expenses by 15% to meet your savings goals faster.",
   "Your financial health is improving! Consider setting up automatic transfers to your savings account.",
   "Based on your current savings rate, you\x27re on track to meet your financial goals in about 4 years.",
   "I notice you\x27re spending quite a bit on dining out. Meal prepping could save you around $200 per month."]

/-- Reply produced by the `except` clause of `chat_with_watson`
(line 178 of `ai_services.py`). -/
def connectionErrorReply : String :=
  "I\x27m having trouble connecting to the financial analysis service. Please try again later."

/-- The message-sending half of `chat_with_watson`'s `try` block
(lines 167-176): look up `context['session_id']`, call `assistant.message`,
extract `response['output']['generic'][0]['text']`; on any exception the
`except` clause returns the error reply with the current `context`. -/
def chatMessageStep (env : Env) (message : String) (context : Option Ctx) :
    Except String (Json × Option Ctx) :=
  match ((match ctxGet context "session_id" with
         | .error e => .error e
         | .ok sid =>
           match env.messageResult sid message with
           | .error e => .error e
           | .ok response =>
             match pyGet response "output" with
             | .error e => .error e
             | .ok out =>
               match pyGet out "generic" with
               | .error e => .error e
               | .ok gen =>
                 match pyIndex gen 0 with
                 | .error e => .error e
                 | .ok g0 => pyGet g0 "text") : Except String Json) with
  | .error _ => .ok (.str connectionErrorReply, context)
  | .ok t => .ok (t, context)

/-- `chat_with_watson(message, context=None)`.  When the assistant is
unavailable it returns a random canned reply with the *input* context; when a
new session is needed, a failure in `create_session` (or a malformed session
payload) hits the `except` clause *before* the local `context` variable has
been reassigned, so the original context is handed back. -/
def chat_with_watson (env : Env) (message : String) (context : Option Ctx) :
    Except String (Json × Option Ctx) :=
  if env.assistantAvailable then
    if needNewSession context then
      match env.createSessionResult with
      | .error _ => .ok (.str connectionErrorReply, context)
      | .ok session =>
        match pyGet session "session_id" with
        | .error _ => .ok (.str connectionErrorReply, context)
        | .ok sid => chatMessageStep env message (some [("session_id", sid)])
    else
      chatMessageStep env message context
  else
    .ok (.str (chatFallbackResponses.getD env.fallbackChoice.val ""), context)

/-! ## analyze_financial_document (ai_services.py lines 181-229) -/

/-- Result of `analyze_financial_document`: the dict
`{"insights": [...], "sentiment": ..., "summary": "..."}`. -/
structure InsightResult where
  insights : List String
  sentiment : Json
  summary : String

/-- Fallback insight result when `init_huggingface_models()` returns `None`
(lines 184-192 of `ai_services.py`). -/
def documentMockNoModels : InsightResult :=
  { insights :=
      ["Q: What are the main expenses?\nA: Based on the document, housing and transportation appear to be your largest expenses.",
       "Q: What is the total income?\nA: The document shows a monthly income of approximately $5,000.",
       "Q: What are the saving patterns?\nA: You\x27re saving about 20% of your income, which is excellent."],
    sentiment := .arr [.obj [("label", .str "POSITIVE"), ("score", .num (89/100))]],
    summary := "Your financial document shows healthy spending habits with a good savings rate. Focus on reducing discretionary spending to improve your financial position further." }

/-- Canned insight result of the API branch (lines 198-206): the API
implementation is a stub that performs no HTTP call at all. -/
def documentMockApi : InsightResult :=
  { insights :=
      ["Q: What are the main expenses?\nA: Housing ($1,500) and Food ($600) are your largest expenses.",
       "Q: What is the total income?\nA: Your monthly income is $5,000.",
       "Q: What are the saving patterns?\nA: You\x27re saving $1,000 monthly (20% savings rate)."],
    sentiment := .arr [.obj [("label", .str "POSITIVE"), ("score", .num (85/100))]],
    summary := "Your financial statement shows strong financial health with a good savings rate. Consider investing your savings for better returns." }

/-- The three fixed insight strings of the local-model branch
(lines 212-216). -/
def documentLocalInsights : List String :=
  ["Q: What are the main expenses?\nA: The document shows significant spending on housing and utilities.",
   "Q: What is the total income?\nA: Monthly income appears to be in the range of $4,000-$5,000.",
   "Q: What are the saving patterns?\nA: You\x27re saving approximately 15-20% of your income."]

/-- The fixed summary of the local-model branch (line 218). -/
def documentLocalSummary : String :=
  "Your financial document indicates generally good financial habits with room for optimization in discretionary spending categories."

/-- Fallback insight result of the `except` clause (lines 221-229). -/
def documentMockOnError : InsightResult :=
  { insights :=
      ["Q: What are the main expenses?\nA: Analysis suggests housing and transportation are primary expenses.",
       "Q: What is the total income?\nA: Estimated monthly income is $4,500-$5,500.",
       "Q: What are the saving patterns?\nA: Savings rate appears to be around 18% of income."],
    sentiment := .arr [.obj [("label", .str "NEUTRAL"), ("score", .num (75/100))]],
    summary := "The document shows reasonably good financial management. Consider consulting with a financial advisor for personalized advice." }

/-- `analyze_financial_document(text)`.  The local branch feeds
`text[:512]` to the sentiment pipeline; a pipeline exception hits the
`except` clause. -/
def analyze_financial_document (env : Env) (text : String) :
    Except String InsightResult :=
  match env.hfInit with
  | none => .ok documentMockNoModels
  | some (.api _) => .ok documentMockApi
  | some .localModel =>
    match env.pipelineRun (text.take 512) with
    | .ok sentiment =>
      .ok { insights := documentLocalInsights,
            sentiment := sentiment,
            summary := documentLocalSummary }
    | .error _ => .ok documentMockOnError

/-! ## send_chat_message (app.py lines 124-139) -/

/-- The keyword test of line 131 of `app.py`:
`any(keyword in message.lower() for keyword in ['analyze', 'sentiment', 'review'])`. -/
def hasTrigger (message : String) : Bool :=
  ["analyze", "sentiment", "review"].any fun k => pyContains (pyLower message) k

/-- The label extraction of line 134 of `app.py`:
`analysis.get('sentiment', {}).get('document', {}).get('label', 'neutral')`,
followed by the `str` requirement of `.capitalize()` on line 135. -/
def sentimentLabelOf (analysis : Json) : Except String String :=
  match pyGetD analysis "sentiment" (Json.obj []) with
  | .error e => .error e
  | .ok s1 =>
    match pyGetD s1 "document" (Json.obj []) with
    | .error e => .error e
    | .ok s2 =>
      match pyGetD s2 "label" (Json.str "neutral") with
      | .error e => .error e
      | .ok lab => pyAsStr lab

/-- The reply built by the `except` clause of `send_chat_message`
(line 139 of `app.py`). -/
def sendErrReply (e : String) : Except String Json :=
  .ok (.str ("I encountered an error: " ++ e ++ ". Please try again."))

/-- `send_chat_message(message)`: calls `chat_with_watson(message)` with the
defaulted `context=None`, keeps only the reply text, and when the message
matches a trigger keyword appends `"\n\nSentiment Analysis: " +
label.capitalize()`.  The whole body sits inside `try ... except`. -/
def send_chat_message (env : Env) (message : String) : Except String Json :=
  match chat_with_watson env message none with
  | .error e => sendErrReply e
  | .ok (response, _context) =>
    if hasTrigger message then
      match analyze_financial_sentiment env message with
      | .error e => sendErrReply e
      | .ok analysis =>
        if analysis.isObj then
          match sentimentLabelOf analysis with
          | .error e => sendErrReply e
          | .ok label =>
            match pyAsStr response with
            | .error e => sendErrReply e
            | .ok base =>
              .ok (.str (base ++ "\n\nSentiment Analysis: " ++ pyCapitalize label))
        else .ok response
    else .ok response

/-! ## calculate_financial_health_score (app.py lines 142-152) -/

/-- `calculate_financial_health_score(income, expenses, savings)`: pure
arithmetic over Python floats, modelled with rationals.  `expenses` is the
expense-category dict, modelled as an association list;
`len(set(expenses.keys()))` is the number of distinct keys. -/
def calculate_financial_health_score (income : ℚ)
    (expenses : List (String × ℚ)) (savings : ℚ) : ℚ :=
  if income = 0 then 0
  else
    let savings_rate : ℚ := if 0 < income then savings / income * 100 else 0
    let expense_diversity : ℚ :=
      min ((((expenses.map Prod.fst).dedup.length : ℚ)) / 10) 1
    let score := savings_rate * (6/10) + expense_diversity * 40
    min (max score 0) 100

/-! ## Concrete environments used by counterexamples and witnesses -/

/-- Fully offline environment: no backend configured, every external call
fails; the `random.choice` index is pinned to 0. -/
def offlineEnv : Env :=
  { assistantAvailable := false,
    fallbackChoice := 0,
    createSessionResult := .error "unconfigured",
    messageResult := fun _ _ => .error "unconfigured",
    nlpAvailable := false,
    nluResult := fun _ => .error "unconfigured",
    graniteConfigured := false,
    granitePost := fun _ _ => .error "unconfigured",
    hfInit := none,
    pipelineRun := fun _ => .error "unavailable" }

/-- Environment in which every backend is configured but every network call
fails (e.g. HTTP 500). -/
def failingEnv : Env :=
  { assistantAvailable := true,
    fallbackChoice := 0,
    createSessionResult := .error "HTTPError: 500",
    messageResult := fun _ _ => .error "HTTPError: 500",
    nlpAvailable := true,
    nluResult := fun _ => .error "HTTPError: 500",
    graniteConfigured := true,
    granitePost := fun _ _ => .error "HTTPError: 500",
    hfInit := some .localModel,
    pipelineRun := fun _ => .error "RuntimeError: pipeline failed" }

/-! ## Helper lemmas: every orchestration operation returns `.ok` -/

/-- `chatMessageStep` always returns `.ok` and hands back the context it was
given. -/
theorem chatMessageStep_ok (env : Env) (message : String) (context : Option Ctx) :
    ∃ t, chatMessageStep env message context = Except.ok (t, context) := by
  unfold chatMessageStep
  split
  · exact ⟨_, rfl⟩
  · exact ⟨_, rfl⟩

/-- `chat_with_watson` always returns `.ok`. -/
theorem chat_with_watson_ok (env : Env) (message : String) (context : Option Ctx) :
    ∃ t c, chat_with_watson env message context = Except.ok (t, c) := by
  unfold chat_with_watson
  split
  · split
    · split
      · exact ⟨_, _, rfl⟩
      · split
        · exact ⟨_, _, rfl⟩
        · obtain ⟨t, ht⟩ := chatMessageStep_ok env message _
          exact ⟨t, _, ht⟩
    · obtain ⟨t, ht⟩ := chatMessageStep_ok env message context
      exact ⟨t, context, ht⟩
  · exact ⟨_, _, rfl⟩

/-- `analyze_financial_sentiment` always returns `.ok`. -/
theorem analyze_financial_sentiment_ok (env : Env) (text : String) :
    ∃ r, analyze_financial_sentiment env text = Except.ok r := by
  unfold analyze_financial_sentiment
  split
  · split
    · exact ⟨_, rfl⟩
    · exact ⟨_, rfl⟩
  · exact ⟨_, rfl⟩

/-- `analyze_financial_document` always returns `.ok`. -/
theorem analyze_financial_document_ok (env : Env) (text : String) :
    ∃ r, analyze_financial_document env text = Except.ok r := by
  unfold analyze_financial_document
  split
  · exact ⟨_, rfl⟩
  · exact ⟨_, rfl⟩
  · split
    · exact ⟨_, rfl⟩
    · exact ⟨_, rfl⟩

/-- `call_granite_model` always returns `.ok`. -/
theorem call_granite_model_ok (env : Env) (prompt model_type : String) :
    ∃ r, call_granite_model env prompt model_type = Except.ok r := by
  unfold call_granite_model
  split
  · exact ⟨_, rfl⟩
  · exact ⟨_, rfl⟩

/-- C1: for every input and every behaviour of the external backends
(unconfigured, transport failure, malformed payload, SDK exception — all of
which are choices of `Env`), each orchestration operation returns normally
(`Except.ok`, i.e. no exception reaches its caller) with a value of its
expected result shape. -/
theorem c1_orchestration_never_raises (env : Env)
    (message text prompt model_type : String) (context : Option Ctx) :
    (∃ r, chat_with_watson env message context = Except.ok r) ∧
    (∃ r, analyze_financial_sentiment env text = Except.ok r) ∧
    (∃ r, analyze_financial_document env text = Except.ok r) ∧
    (∃ r, call_granite_model env prompt model_type = Except.ok r) := by
  refine ⟨?_, analyze_financial_sentiment_ok env text,
    analyze_financial_document_ok env text, call_granite_model_ok env prompt model_type⟩
  obtain ⟨t, c, h⟩ := chat_with_watson_ok env message context
  exact ⟨(t, c), h⟩

/-- C5: on the synthetic fallback path (conversational backend unavailable),
`chat_with_watson` returns exactly the context it was given, unchanged. -/
theorem c5_fallback_context_unchanged (env : Env) (message : String)
    (context : Option Ctx) (h : env.assistantAvailable = false) :
    chat_with_watson env message context =
      Except.ok (Json.str (chatFallbackResponses.getD env.fallbackChoice.val ""),
        context) := by
  unfold chat_with_watson
  rw [h]
  simp

/-- Witness for C5 at a concrete offline environment and input. -/
theorem c5_fallback_context_unchanged_witness :
    chat_with_watson offlineEnv "Hello" (some [("session_id", Json.str "old")]) =
      Except.ok (Json.str (chatFallbackResponses.getD 0 ""),
        some [("session_id", Json.str "old")]) :=
  c5_fallback_context_unchanged offlineEnv "Hello"
    (some [("session_id", Json.str "old")]) rfl

/-- C9: for every input text and every backend/local-model availability,
`analyze_financial_document` returns (normally) a non-empty `InsightResult`:
three insight strings, a sentiment field, and a non-empty summary. -/
theorem c9_document_result_nonempty (env : Env) (text : String) :
    ∃ r, analyze_financial_document env text = Except.ok r ∧
      r.insights.length = 3 ∧ r.insights ≠ [] ∧ r.summary ≠ "" := by
  unfold analyze_financial_document
  split
  · exact ⟨_, rfl, rfl, by decide, by decide⟩
  · exact ⟨_, rfl, rfl, by decide, by decide⟩
  · split
    · refine ⟨_, rfl, rfl, ?_, ?_⟩
      · show documentLocalInsights ≠ []
        decide
      · show documentLocalSummary ≠ ""
        decide
    · exact ⟨_, rfl, rfl, by decide, by decide⟩

/-- C6: the financial health score is 0 at zero income, and otherwise equals
the clamped weighted formula of the source, a value in `[0, 100]`. -/
theorem c6_score_formula (income savings : ℚ) (expenses : List (String × ℚ))
    (hinc : 0 ≤ income) (_hsav : 0 ≤ savings) :
    (income = 0 → calculate_financial_health_score income expenses savings = 0) ∧
    (income ≠ 0 →
      calculate_financial_health_score income expenses savings =
        min (max (savings / income * 100 * (6/10) +
          min ((((expenses.map Prod.fst).dedup.length : ℚ)) / 10) 1 * 40) 0) 100 ∧
      0 ≤ calculate_financial_health_score income expenses savings ∧
      calculate_financial_health_score income expenses savings ≤ 100) := by
  constructor
  · intro h0
    simp [calculate_financial_health_score, h0]
  · intro h0
    have hpos : 0 < income := lt_of_le_of_ne hinc (Ne.symm h0)
    have heq : calculate_financial_health_score income expenses savings =
        min (max (savings / income * 100 * (6/10) +
          min ((((expenses.map Prod.fst).dedup.length : ℚ)) / 10) 1 * 40) 0) 100 := by
      simp only [calculate_financial_health_score, if_neg h0, if_pos hpos]
    refine ⟨heq, ?_, ?_⟩
    · rw [heq]
      exact le_min (le_max_right _ _) (by norm_num)
    · rw [heq]
      exact min_le_right _ _

/-- Witness for C6 at a concrete positive-income input. -/
theorem c6_score_formula_witness :
    ((5 : ℚ) = 0 → calculate_financial_health_score 5 [("a", 1)] 2 = 0) ∧
    ((5 : ℚ) ≠ 0 →
      calculate_financial_health_score 5 [("a", 1)] 2 =
        min (max ((2 : ℚ) / 5 * 100 * (6/10) +
          min (((([("a", (1 : ℚ))].map Prod.fst).dedup.length : ℚ)) / 10) 1 * 40) 0) 100 ∧
      0 ≤ calculate_financial_health_score 5 [("a", 1)] 2 ∧
      calculate_financial_health_score 5 [("a", 1)] 2 ≤ 100) :=
  c6_score_formula 5 2 [("a", 1)] (by norm_num) (by norm_num)

/-- C7: with income and expenses fixed, the health score is monotonically
non-decreasing in savings. -/
theorem c7_score_monotone_in_savings (income s1 s2 : ℚ)
    (expenses : List (String × ℚ)) (hinc : 0 ≤ income) (h : s1 ≤ s2) :
    calculate_financial_health_score income expenses s1 ≤
      calculate_financial_health_score income expenses s2 := by
  simp only [calculate_financial_health_score]
  split_ifs with h0 hpos
  · exact le_refl 0
  · have hd : s1 / income ≤ s2 / income := div_le_div_of_nonneg_right h hinc
    exact min_le_min (max_le_max (add_le_add_right
      (mul_le_mul_of_nonneg_right
        (mul_le_mul_of_nonneg_right hd (by norm_num)) (by norm_num)) _) le_rfl) le_rfl
  · exact le_refl _

/-- Witness for C7 at concrete inputs. -/
theorem c7_score_monotone_in_savings_witness :
    calculate_financial_health_score 5 [("a", 1)] 1 ≤
      calculate_financial_health_score 5 [("a", 1)] 2 :=
  c7_score_monotone_in_savings 5 1 2 [("a", 1)] (by norm_num) (by norm_num)

/-- The pinned regression value of the score at the spec's example input:
the code yields exactly 20, not ≈52. -/
theorem score_regression_example :
    calculate_financial_health_score 5000 [("Housing", 1500), ("Food", 600)] 1000
      = 20 := by
  have h : (["Housing", "Food"] : List String).dedup = ["Housing", "Food"] := by
    decide
  norm_num [calculate_financial_health_score, h, min_def, max_def]

/-- C8 counterexample: at income 5000, expenses {Housing: 1500, Food: 600},
savings 1000 the score is 20, which is not approximately 52 (not even within
±5 of it). -/
theorem c8_score_not_52_counterexample :
    calculate_financial_health_score 5000 [("Housing", 1500), ("Food", 600)] 1000
        = 20 ∧
    ¬ (47 ≤ calculate_financial_health_score 5000
          [("Housing", 1500), ("Food", 600)] 1000 ∧
       calculate_financial_health_score 5000
          [("Housing", 1500), ("Food", 600)] 1000 ≤ 57) := by
  refine ⟨score_regression_example, ?_⟩
  rw [score_regression_example]
  norm_num

/-- C8 amended: the score at income 5000, expenses {Housing: 1500,
Food: 600}, savings 1000 is exactly 20 (savings rate 20 → 12 points,
diversity 0.2 → 8 points). -/
theorem c8_score_regression_value :
    calculate_financial_health_score 5000 [("Housing", 1500), ("Food", 600)] 1000
      = 20 :=
  score_regression_example

/-- C2 counterexample: the generative backend's failure-path fallback is a
different string from its unconfigured-path synthetic response, so the
failure result is not drawn from the same fixed synthetic pool. -/
theorem c2_failure_pool_counterexample :
    call_granite_model failingEnv "p" "financial-analysis" =
        Except.ok (Json.str graniteMockOnError) ∧
    call_granite_model offlineEnv "p" "financial-analysis" =
        Except.ok (Json.str graniteMockUnconfigured) ∧
    graniteMockOnError ≠ graniteMockUnconfigured :=
  ⟨rfl, rfl, by decide⟩

/-- C2 amended: every failing configured backend call still degrades to a
fixed kind-specific synthetic result (never an exception), but only for the
sentiment kind is it the same value as the unconfigured fallback; for the
generative, conversational and document-analysis kinds the failure fallback
differs from the unconfigured one, and a document-analysis backend
"configured" with an API key returns a fixed canned result without any
HTTP call (so an HTTP 500 cannot occur on that path). -/
theorem c2_failure_fallbacks_amended (envS envG envC envD : Env)
    (text prompt model_type message : String)
    (eS : String) (hSa : envS.nlpAvailable = true)
    (hSf : envS.nluResult text = .error eS)
    (eG : String) (hGa : envG.graniteConfigured = true)
    (hGf : envG.granitePost prompt model_type = .error eG)
    (eC : String) (hCa : envC.assistantAvailable = true)
    (hCf : envC.createSessionResult = .error eC)
    (hDa : envD.hfInit = some .localModel)
    (eD : String) (hDf : envD.pipelineRun (text.take 512) = .error eD) :
    (analyze_financial_sentiment envS text = Except.ok sentimentMockOnError ∧
       sentimentMockOnError = sentimentMockUnavailable) ∧
    (call_granite_model envG prompt model_type =
         Except.ok (Json.str graniteMockOnError) ∧
       graniteMockOnError ≠ graniteMockUnconfigured) ∧
    (chat_with_watson envC message none =
         Except.ok (Json.str connectionErrorReply, none) ∧
       connectionErrorReply ∉ chatFallbackResponses) ∧
    (analyze_financial_document envD text = Except.ok documentMockOnError ∧
       documentMockOnError ≠ documentMockNoModels) ∧
    (∀ env : Env, ∀ k, env.hfInit = some (.api k) →
       analyze_financial_document env text = Except.ok documentMockApi) := by
  refine ⟨⟨?_, rfl⟩, ⟨?_, by decide⟩, ⟨?_, by decide⟩, ⟨?_, ?_⟩, ?_⟩
  · simp [analyze_financial_sentiment, hSa, hSf]
  · simp [call_granite_model, hGa, hGf]
  · simp [chat_with_watson, hCa, hCf, needNewSession]
  · simp [analyze_financial_document, hDa, hDf]
  · intro hcontra
    exact absurd (congrArg InsightResult.summary hcontra) (by decide)
  · intro env k hk
    simp [analyze_financial_document, hk]

/-- Witness for the amended C2 at the concrete all-configured-all-failing
environment. -/
theorem c2_failure_fallbacks_amended_witness :
    (analyze_financial_sentiment failingEnv "doc" =
         Except.ok sentimentMockOnError ∧
       sentimentMockOnError = sentimentMockUnavailable) ∧
    (call_granite_model failingEnv "p" "financial-analysis" =
         Except.ok (Json.str graniteMockOnError) ∧
       graniteMockOnError ≠ graniteMockUnconfigured) ∧
    (chat_with_watson failingEnv "hi" none =
         Except.ok (Json.str connectionErrorReply, none) ∧
       connectionErrorReply ∉ chatFallbackResponses) ∧
    (analyze_financial_document failingEnv "doc" =
         Except.ok documentMockOnError ∧
       documentMockOnError ≠ documentMockNoModels) ∧
    (∀ env : Env, ∀ k, env.hfInit = some (.api k) →
       analyze_financial_document env "doc" = Except.ok documentMockApi) :=
  c2_failure_fallbacks_amended failingEnv failingEnv failingEnv failingEnv
    "doc" "p" "financial-analysis" "hi"
    "HTTPError: 500" rfl rfl "HTTPError: 500" rfl rfl "HTTPError: 500" rfl rfl
    rfl "RuntimeError: pipeline failed" rfl

/-- C4 counterexample: with the conversational backend unconfigured, a call
with `context=None` hands back a null context, so the two returned contexts
are not both non-null. -/
theorem c4_null_context_counterexample :
    ¬ ∃ t c, chat_with_watson offlineEnv "Hello" none = Except.ok (t, some c) := by
  intro hex
  obtain ⟨t, c, h⟩ := hex
  have h0 : chat_with_watson offlineEnv "Hello" none =
      Except.ok (Json.str (chatFallbackResponses.getD 0 ""),
        (none : Option Ctx)) := rfl
  rw [h0] at h
  simp at h

/-- C4 amended: calling chat twice with `context=null` yields non-null,
structurally valid contexts (carrying a session handle) whenever the
conversational backend is available and session creation succeeds on each
call — even when the per-message call itself fails; on the synthetic fallback
path (backend unavailable) the null context is handed back unchanged. -/
theorem c4_context_shape_amended (env1 env2 : Env) (m1 m2 : String)
    (sp1 sp2 sid1 sid2 : Json)
    (h1a : env1.assistantAvailable = true)
    (h1s : env1.createSessionResult = .ok sp1)
    (h1g : pyGet sp1 "session_id" = .ok sid1)
    (h2a : env2.assistantAvailable = true)
    (h2s : env2.createSessionResult = .ok sp2)
    (h2g : pyGet sp2 "session_id" = .ok sid2) :
    (∃ t1, chat_with_watson env1 m1 none =
        Except.ok (t1, some [("session_id", sid1)])) ∧
    (∃ t2, chat_with_watson env2 m2 none =
        Except.ok (t2, some [("session_id", sid2)])) ∧
    (∀ env : Env, ∀ m, env.assistantAvailable = false →
       (chat_with_watson env m none).map Prod.snd = Except.ok none) := by
  refine ⟨?_, ?_, ?_⟩
  · obtain ⟨t, ht⟩ := chatMessageStep_ok env1 m1 (some [("session_id", sid1)])
    refine ⟨t, ?_⟩
    simp [chat_with_watson, h1a, h1s, h1g, needNewSession, ht]
  · obtain ⟨t, ht⟩ := chatMessageStep_ok env2 m2 (some [("session_id", sid2)])
    refine ⟨t, ?_⟩
    simp [chat_with_watson, h2a, h2s, h2g, needNewSession, ht]
  · intro env m hoff
    simp [chat_with_watson, hoff, Except.map]

/-- A configured conversational backend whose session creation succeeds but
whose message call fails. -/
def liveChatEnv : Env :=
  { failingEnv with
    createSessionResult := .ok (.obj [("session_id", .str "sess-1")]) }

/-- Witness for the amended C4 at a concrete session-creating environment. -/
theorem c4_context_shape_amended_witness :
    (∃ t1, chat_with_watson liveChatEnv "Hi" none =
        Except.ok (t1, some [("session_id", Json.str "sess-1")])) ∧
    (∃ t2, chat_with_watson liveChatEnv "Hi again" none =
        Except.ok (t2, some [("session_id", Json.str "sess-1")])) ∧
    (∀ env : Env, ∀ m, env.assistantAvailable = false →
       (chat_with_watson env m none).map Prod.snd = Except.ok none) :=
  c4_context_shape_amended liveChatEnv liveChatEnv "Hi" "Hi again"
    (.obj [("session_id", .str "sess-1")]) (.obj [("session_id", .str "sess-1")])
    (Json.str "sess-1") (Json.str "sess-1") rfl rfl rfl rfl rfl rfl

/-! ## send_chat_message: keyword-triggered sentiment enrichment -/

/-- Evaluation lemma for `send_chat_message`: when the conversational reply
is a string and the sentiment payload yields a string label, a trigger
message gets the appended sentiment line and a non-trigger message gets the
base reply unchanged. -/
theorem send_chat_message_eval (env : Env) (message base : String)
    (c : Option Ctx)
    (hbase : chat_with_watson env message none = Except.ok (Json.str base, c))
    (hwf : ∀ a, analyze_financial_sentiment env message = Except.ok a →
             a.isObj = true ∧ ∃ l, sentimentLabelOf a = Except.ok l) :
    (hasTrigger message = true →
       ∃ l a, analyze_financial_sentiment env message = Except.ok a ∧
         sentimentLabelOf a = Except.ok l ∧
         send_chat_message env message =
           Except.ok (Json.str
             (base ++ "\n\nSentiment Analysis: " ++ pyCapitalize l))) ∧
    (hasTrigger message = false →
       send_chat_message env message = Except.ok (Json.str base)) := by
  obtain ⟨a, ha⟩ := analyze_financial_sentiment_ok env message
  obtain ⟨hobj, l, hl⟩ := hwf a ha
  constructor
  · intro htr
    refine ⟨l, a, ha, hl, ?_⟩
    simp [send_chat_message, hbase, htr, ha, hobj, hl, pyAsStr]
  · intro htr
    simp [send_chat_message, hbase, htr]

/-- The sentiment-label marker is a substring of an enriched reply. -/
theorem marker_infix (base l : String) :
    "Sentiment Analysis: ".data <:+:
      (base ++ "\n\nSentiment Analysis: " ++ pyCapitalize l).data := by
  have h1 : "Sentiment Analysis: ".data <:+:
      ("\n\nSentiment Analysis: ").data := by decide
  have h2 : ("\n\nSentiment Analysis: ").data <+:
      ("\n\nSentiment Analysis: ").data ++ (pyCapitalize l).data :=
    List.prefix_append _ _
  have h3 := h1.trans h2.isInfix
  have h4 : (("\n\nSentiment Analysis: ").data ++ (pyCapitalize l).data) <:+
      base.data ++ (("\n\nSentiment Analysis: ").data ++ (pyCapitalize l).data) :=
    List.suffix_append _ _
  have h5 := h3.trans h4.isInfix
  simpa [String.data_append, List.append_assoc] using h5

/-- The base reply is kept as a prefix of an enriched reply. -/
theorem base_prefix (base l : String) :
    base.data <+: (base ++ "\n\nSentiment Analysis: " ++ pyCapitalize l).data := by
  simp [String.data_append, List.append_assoc]

/-- C3: a message containing a trigger keyword ("analyze", "sentiment",
"review", case-insensitively) yields a reply that keeps the base reply as a
prefix and appends the title-cased sentiment label after a blank line; a
message with no trigger keyword yields the base reply with no sentiment
label substring.  The hypotheses say the conversational reply is a string not
already containing the label marker and the sentiment payload yields a string
label — true on every fallback path and on every payload of the spec's data
model. -/
theorem c3_keyword_sentiment_enrichment (env : Env) (message base : String)
    (c : Option Ctx)
    (hbase : chat_with_watson env message none = Except.ok (Json.str base, c))
    (hwf : ∀ a, analyze_financial_sentiment env message = Except.ok a →
             a.isObj = true ∧ ∃ l, sentimentLabelOf a = Except.ok l)
    (hclean : ¬ ("Sentiment Analysis: ".data <:+: base.data)) :
    (hasTrigger message = true →
       ∃ l, send_chat_message env message =
           Except.ok (Json.str
             (base ++ "\n\nSentiment Analysis: " ++ pyCapitalize l)) ∧
         "Sentiment Analysis: ".data <:+:
           (base ++ "\n\nSentiment Analysis: " ++ pyCapitalize l).data ∧
         base.data <+:
           (base ++ "\n\nSentiment Analysis: " ++ pyCapitalize l).data) ∧
    (hasTrigger message = false →
       send_chat_message env message = Except.ok (Json.str base) ∧
       ¬ ("Sentiment Analysis: ".data <:+: base.data)) := by
  obtain ⟨h1, h2⟩ := send_chat_message_eval env message base c hbase hwf
  constructor
  · intro htr
    obtain ⟨l, a, ha, hl, hs⟩ := h1 htr
    exact ⟨l, hs, marker_infix base l, base_prefix base l⟩
  · intro htr
    exact ⟨h2 htr, hclean⟩

set_option maxRecDepth 4096 in
/-- Witness for C3 at the offline environment with the trigger message
"please review". -/
theorem c3_keyword_sentiment_enrichment_witness :
    (hasTrigger "please review" = true →
       ∃ l, send_chat_message offlineEnv "please review" =
           Except.ok (Json.str (chatFallbackResponses.getD 0 "" ++
             "\n\nSentiment Analysis: " ++ pyCapitalize l)) ∧
         "Sentiment Analysis: ".data <:+:
           (chatFallbackResponses.getD 0 "" ++
             "\n\nSentiment Analysis: " ++ pyCapitalize l).data ∧
         (chatFallbackResponses.getD 0 "").data <+:
           (chatFallbackResponses.getD 0 "" ++
             "\n\nSentiment Analysis: " ++ pyCapitalize l).data) ∧
    (hasTrigger "please review" = false →
       send_chat_message offlineEnv "please review" =
         Except.ok (Json.str (chatFallbackResponses.getD 0 "")) ∧
       ¬ ("Sentiment Analysis: ".data <:+:
           (chatFallbackResponses.getD 0 "").data)) :=
  c3_keyword_sentiment_enrichment offlineEnv "please review"
    (chatFallbackResponses.getD 0 "") none rfl
    (fun a ha => by
      have h0 : analyze_financial_sentiment offlineEnv "please review" =
          Except.ok sentimentMockUnavailable := rfl
      rw [h0] at ha
      cases ha
      exact ⟨rfl, "neutral", rfl⟩)
    (by decide)

/-- C10: `send_chat_message` invokes `chat_with_watson` with the defaulted
absent context (`none`) and discards the context component of its result:
the value it returns is only the reply text, with the base reply (of the
context-free chat call) as a prefix; no session handle appears in the
result, so no turn can feed a previous turn's handle back in. -/
theorem c10_context_discarded (env : Env) (message base : String)
    (c : Option Ctx)
    (hbase : chat_with_watson env message none = Except.ok (Json.str base, c))
    (hwf : ∀ a, analyze_financial_sentiment env message = Except.ok a →
             a.isObj = true ∧ ∃ l, sentimentLabelOf a = Except.ok l) :
    ∃ t, send_chat_message env message = Except.ok (Json.str t) ∧
      base.data <+: t.data := by
  obtain ⟨h1, h2⟩ := send_chat_message_eval env message base c hbase hwf
  cases htr : hasTrigger message with
  | false => exact ⟨base, h2 htr, List.prefix_refl _⟩
  | true =>
    obtain ⟨l, a, ha, hl, hs⟩ := h1 htr
    exact ⟨_, hs, base_prefix base l⟩

/-- Witness for C10 at the offline environment with a non-trigger message. -/
theorem c10_context_discarded_witness :
    ∃ t, send_chat_message offlineEnv "hello" = Except.ok (Json.str t) ∧
      (chatFallbackResponses.getD 0 "").data <+: t.data :=
  c10_context_discarded offlineEnv "hello" (chatFallbackResponses.getD 0 "")
    none rfl
    (fun a ha => by
      have h0 : analyze_financial_sentiment offlineEnv "hello" =
          Except.ok sentimentMockUnavailable := rfl
      rw [h0] at ha
      cases ha
      exact ⟨rfl, "neutral", rfl⟩)
